import Mathlib

/-!
Shallow embedding of the OTP issuance/verification subsystem of `server.js`
(BAES back end): the handlers `POST /api/send-email-otp`,
`POST /api/send-phone-otp`, `POST /api/verify-otp` and their helpers
`generateOTP` and `formatPhoneNumber`.

Modelling conventions:
- The Supabase `otp_codes` table is a list of records plus an id sequence.
- The clock is an explicit `Nat` parameter (measured in minutes; the code
  uses `Date` values, only ordering and the 10-minute offset matter).
- Each external effect whose success is outside the program's control
  (SendGrid send, Twilio send, the store insert) is a Boolean parameter of
  the operation that performs it; the best-effort attempt-increment update
  (whose supabase error the code ignores) likewise gets a Boolean.
- Every store round trip the handler issues is recorded in a trace so that
  "no store interaction" claims are expressible.
-/

/-- `OTP_EXPIRY_MINUTES` from server.js. -/
def OTP_EXPIRY_MINUTES : Nat := 10

/-- `MAX_OTP_ATTEMPTS` from server.js. -/
def MAX_OTP_ATTEMPTS : Nat := 5

/-- `OTP_LENGTH` from server.js. -/
def OTP_LENGTH : Nat := 6

/-- Decimal digit characters of `n`, most significant first.  Structured on
a fuel argument so that it is structurally recursive and reduces by
`decide`; `fuel ≥ n` makes it the exact decimal expansion. -/
def decDigitsCore (fuel n : Nat) : List Char :=
  match fuel with
  | 0 => []
  | f + 1 => if n = 0 then [] else decDigitsCore f (n / 10) ++ [Char.ofNat (48 + n % 10)]

/-- Decimal string of a natural number, as JS `Number.prototype.toString`
renders the integers produced by `generateOTP`. -/
def natToDecimal (n : Nat) : String :=
  if n = 0 then "0" else String.mk (decDigitsCore n n)

/-- `generateOTP` from server.js:
`Math.floor(100000 + Math.random() * 900000).toString()`.
`rand` stands for the random draw `Math.floor(Math.random() * 900000)`,
reduced mod 900000 so that every argument denotes a possible draw. -/
def generateOTP (rand : Nat) : String :=
  natToDecimal (100000 + rand % 900000)

/-- The character class `\s` of a JavaScript regular expression
(whitespace code points, per ECMA-262). -/
def isJsWhitespace (c : Char) : Bool :=
  decide (c = ' ' ∨ c = '\t' ∨ c = '\n' ∨ c = '\u000b' ∨ c = '\u000c' ∨ c = '\r' ∨
    c = '\u00a0' ∨ c = '\u1680' ∨ ('\u2000' ≤ c ∧ c ≤ '\u200a') ∨
    c = '\u2028' ∨ c = '\u2029' ∨ c = '\u202f' ∨ c = '\u205f' ∨ c = '\u3000' ∨ c = '\ufeff')

/-- A character matched by `[^\s@]` in the email regex of server.js. -/
def emailAtomChar (c : Char) : Bool :=
  !isJsWhitespace c && !(c == '@')

/-- The part of the email regex after the `@`: `[^\s@]+\.[^\s@]+`.
Since `.` is itself a `[^\s@]` character, backtracking makes this
equivalent to: all characters are atom characters and some `.` occurs
that is neither the first nor the last character. -/
def emailDomainOk (l : List Char) : Bool :=
  l.all emailAtomChar && (l.drop 1).dropLast.contains '.'

/-- `emailRegex.test` from server.js: `/^[^\s@]+@[^\s@]+\.[^\s@]+$/`.
The string is split at its first `@` (the classes forbid any further `@`). -/
def emailRegexTest (e : String) : Bool :=
  match e.data.span (fun c => !(c == '@')) with
  | (bef, _ :: aft) => !bef.isEmpty && bef.all emailAtomChar && emailDomainOk aft
  | (_, []) => false

/-- `formatPhoneNumber` from server.js: `phone.replace(/[^\d+]/g, '')`
keeps every ASCII digit and every `+`; then, when the result does not
start with `+` (i.e. its first code point is not `+`), `'+1'` is
prepended. -/
def formatPhoneNumber (phone : String) : String :=
  let cleaned := phone.data.filter fun c => c.isDigit || c == '+'
  if cleaned.head? = some '+' then String.mk cleaned else String.mk ('+' :: '1' :: cleaned)

/-- One row of the `otp_codes` table, with the columns server.js reads or
writes.  `email`/`phone` are nullable columns; an email-kind insert leaves
`phone` null and vice versa. -/
structure OtpRecord where
  id : Nat
  type : String
  email : Option String
  phone : Option String
  otp_code : String
  expires_at : Nat
  created_at : Nat
  verified : Bool
  attempts : Nat
deriving Repr, DecidableEq

/-- The `otp_codes` table plus the id sequence used for fresh row ids. -/
structure Store where
  records : List OtpRecord
  nextId : Nat
deriving Repr, DecidableEq

/-- SQL equality as used by the supabase `.eq` filters: a null column or a
null filter value matches nothing. -/
def sqlEq : Option String → Option String → Bool
  | some a, some b => decide (a = b)
  | _, _ => false

/-- JS truthiness of an optional request-body string: absent (`undefined`/
`null`) and the empty string are falsy. -/
def truthy : Option String → Bool
  | none => false
  | some s => decide (s ≠ "")

/-- Of two rows, the one a `order by created_at desc limit 1` query
prefers; ties on `created_at` are broken by the larger id (insertion
order), determinizing the unspecified tie order of the store. -/
def pickNewer (a b : OtpRecord) : OtpRecord :=
  if a.created_at < b.created_at ∨ (a.created_at = b.created_at ∧ a.id < b.id) then b else a

/-- The row returned by `order('created_at', descending).limit(1)` over a
filtered row list. -/
def latest (l : List OtpRecord) : Option OtpRecord :=
  l.foldl (fun acc r =>
    match acc with
    | none => some r
    | some a => some (pickNewer a r)) none

/-- `update({ verified: true })` under a row filter, as both send handlers
run it to invalidate prior codes. -/
def invalidateFor (p : OtpRecord → Bool) (l : List OtpRecord) : List OtpRecord :=
  l.map fun r => if p r = true then { r with verified := true } else r

/-- `update(patch).eq('id', i)`: apply `f` to every row with id `i`. -/
def updateById (i : Nat) (f : OtpRecord → OtpRecord) (l : List OtpRecord) : List OtpRecord :=
  l.map fun r => if r.id = i then f r else r

/-- Row filter of the invalidation update in `POST /api/send-email-otp`:
`eq('email', e).eq('type', 'email').eq('verified', false)`. -/
def invalidationFilterEmail (e : String) (r : OtpRecord) : Bool :=
  sqlEq r.email (some e) && decide (r.type = "email") && decide (r.verified = false)

/-- Row filter of the invalidation update in `POST /api/send-phone-otp`:
`eq('phone', p).eq('type', 'phone').eq('verified', false)`. -/
def invalidationFilterPhone (p : String) (r : OtpRecord) : Bool :=
  sqlEq r.phone (some p) && decide (r.type = "phone") && decide (r.verified = false)

/-- `const formattedPhone = phone ? formatPhoneNumber(phone) : null` from
`POST /api/verify-otp`. -/
def formattedPhoneOf (phone : Option String) : Option String :=
  if truthy phone = true then some (formatPhoneNumber (phone.getD "")) else none

/-- Row filter of the main lookup in `POST /api/verify-otp`:
`eq('type', ty).eq('otp_code', otp).eq('verified', false)
.gt('expires_at', now)` plus the destination equality chosen by the
`type === 'email'` branch. -/
def verifyLiveFilter (tyS otpS : String) (email fphone : Option String) (now : Nat)
    (r : OtpRecord) : Bool :=
  decide (r.type = tyS) && decide (r.otp_code = otpS) && decide (r.verified = false) &&
    decide (now < r.expires_at) &&
    (if tyS = "email" then sqlEq r.email email else sqlEq r.phone fphone)

/-- Row filter of the attempt-increment lookup in `POST /api/verify-otp`
(no code and no expiry condition): `eq('type', ty).eq('verified', false)`
plus the destination equality. -/
def verifyRecentFilter (tyS : String) (email fphone : Option String) (r : OtpRecord) : Bool :=
  decide (r.type = tyS) && decide (r.verified = false) &&
    (if tyS = "email" then sqlEq r.email email else sqlEq r.phone fphone)

/-- The main lookup of `POST /api/verify-otp`. -/
def verifyLookup (email phone otp ty : Option String) (now : Nat) (s : Store) :
    Option OtpRecord :=
  latest (s.records.filter
    (verifyLiveFilter (ty.getD "") (otp.getD "") email (formattedPhoneOf phone) now))

/-- The fallback "most recent unverified row" lookup of
`POST /api/verify-otp`. -/
def verifyRecent (email phone ty : Option String) (s : Store) : Option OtpRecord :=
  latest (s.records.filter (verifyRecentFilter (ty.getD "") email (formattedPhoneOf phone)))

/-- Store round trips a handler issues, recorded in request order so that
"no store interaction before a validation failure" is expressible. -/
inductive StoreOp where
  | update
  | insert
  | select
deriving Repr, DecidableEq

/-- Responses of the two send handlers, keyed by their distinct response
payloads.  `ok echoed` carries the `...(NODE_ENV === 'development' && { otp })`
spread: the literal code is present exactly when `echoed` is `some`. -/
inductive IssueResult where
  | missingInput
  | invalidEmailFormat
  | smsNotConfigured
  | storageError
  | emailDispatchError
  | emailNotConfigured
  | smsDispatchError
  | ok (echoed : Option String)
deriving Repr, DecidableEq

/-- Responses of `POST /api/verify-otp`. -/
inductive VerifyResult where
  | missingOtpOrType
  | missingEmail
  | missingPhone
  | badFormat
  | invalidOrExpired
  | maxAttemptsExceeded
  | verifiedOk
deriving Repr, DecidableEq

/-- `POST /api/send-email-otp`.  Parameters beyond the request body:
`env` is `process.env.NODE_ENV`; `sendGridConfigured` is the presence of
`SENDGRID_API_KEY`; `sendFails` is the outcome of the SendGrid call;
`insertFails` is the outcome of the store insert; `rand` feeds
`generateOTP`; `now` is the current time; `s` is the store.  The handler
checks the email's truthiness and format, invalidates prior unverified
codes for the address, inserts the fresh record, attempts the email send
(failure is fatal only in production; a missing key is fatal only in
production), and echoes the code only in development. -/
def issueEmailOtp (email : Option String) (env : String)
    (sendGridConfigured sendFails insertFails : Bool) (rand now : Nat) (s : Store) :
    IssueResult × Store × List StoreOp :=
  if truthy email = false then (.missingInput, s, [])
  else if emailRegexTest (email.getD "") = false then (.invalidEmailFormat, s, [])
  else
    let e := email.getD ""
    let otp := generateOTP rand
    let s₁ : Store := { s with records := invalidateFor (invalidationFilterEmail e) s.records }
    if insertFails = true then (.storageError, s₁, [.update, .insert])
    else
      let newRec : OtpRecord :=
        { id := s₁.nextId, type := "email", email := some e, phone := none,
          otp_code := otp, expires_at := now + OTP_EXPIRY_MINUTES, created_at := now,
          verified := false, attempts := 0 }
      let s₂ : Store := { records := s₁.records ++ [newRec], nextId := s₁.nextId + 1 }
      if sendGridConfigured = true then
        if sendFails = true ∧ env = "production" then (.emailDispatchError, s₂, [.update, .insert])
        else (.ok (if env = "development" then some otp else none), s₂, [.update, .insert])
      else
        if env = "production" then (.emailNotConfigured, s₂, [.update, .insert])
        else (.ok (if env = "development" then some otp else none), s₂, [.update, .insert])

/-- `POST /api/send-phone-otp`.  `twilioConfigured` is the presence of the
Twilio client and sender number; `smsFails` is the outcome of the Twilio
send (always fatal); the remaining parameters are as in `issueEmailOtp`.
The handler checks the phone's truthiness and the SMS configuration,
normalizes the number, invalidates prior unverified codes for it, inserts
the fresh record, attempts the SMS, and echoes the code only in
development. -/
def issuePhoneOtp (phone : Option String) (env : String)
    (twilioConfigured smsFails insertFails : Bool) (rand now : Nat) (s : Store) :
    IssueResult × Store × List StoreOp :=
  if truthy phone = false then (.missingInput, s, [])
  else if twilioConfigured = false then (.smsNotConfigured, s, [])
  else
    let p := formatPhoneNumber (phone.getD "")
    let otp := generateOTP rand
    let s₁ : Store := { s with records := invalidateFor (invalidationFilterPhone p) s.records }
    if insertFails = true then (.storageError, s₁, [.update, .insert])
    else
      let newRec : OtpRecord :=
        { id := s₁.nextId, type := "phone", email := none, phone := some p,
          otp_code := otp, expires_at := now + OTP_EXPIRY_MINUTES, created_at := now,
          verified := false, attempts := 0 }
      let s₂ : Store := { records := s₁.records ++ [newRec], nextId := s₁.nextId + 1 }
      if smsFails = true then (.smsDispatchError, s₂, [.update, .insert])
      else (.ok (if env = "development" then some otp else none), s₂, [.update, .insert])

/-- The post-validation part of `POST /api/verify-otp`: lookup,
max-attempt check, verified transition, and the no-match
attempt-increment path.  `incFails` is the (ignored) outcome of the
best-effort attempt-increment update; the success-path `verified` update's
error branch is a plain 500 passthrough and is not failure-injected here.
With no match the handler increments the attempts of the most recent
unverified row for the destination (if any) and reports
`invalidOrExpired`; with a match it reports `maxAttemptsExceeded` when the
attempt budget is spent, else marks the row verified. -/
def verifyCore (email phone otp ty : Option String) (now : Nat) (incFails : Bool) (s : Store) :
    VerifyResult × Store × List StoreOp :=
  match verifyLookup email phone otp ty now s with
    | some otpRecord =>
      if MAX_OTP_ATTEMPTS ≤ otpRecord.attempts then (.maxAttemptsExceeded, s, [.select])
      else
        (.verifiedOk,
         { s with records := updateById otpRecord.id (fun r => { r with verified := true }) s.records },
         [.select, .update])
    | none =>
      match verifyRecent email phone ty s with
      | some r0 =>
        (.invalidOrExpired,
         if incFails = true then s
         else { s with
                records := updateById r0.id (fun r => { r with attempts := r0.attempts + 1 }) s.records },
         [.select, .select, .update])
      | none => (.invalidOrExpired, s, [.select, .select])

/-- `POST /api/verify-otp`: the validation prelude of the handler,
falling through to `verifyCore`. -/
def verifyOtp (email phone otp ty : Option String) (now : Nat) (incFails : Bool) (s : Store) :
    VerifyResult × Store × List StoreOp :=
  if truthy otp = false ∨ truthy ty = false then (.missingOtpOrType, s, [])
  else if ty.getD "" = "email" ∧ truthy email = false then (.missingEmail, s, [])
  else if ty.getD "" = "phone" ∧ truthy phone = false then (.missingPhone, s, [])
  else if (otp.getD "").length ≠ OTP_LENGTH ∨ (otp.getD "").data.all Char.isDigit = false then
    (.badFormat, s, [])
  else verifyCore email phone otp ty now incFails s

/-- The row `POST /api/send-email-otp` inserts. -/
def emailOtpRecord (e : String) (rand now idv : Nat) : OtpRecord :=
  { id := idv, type := "email", email := some e, phone := none,
    otp_code := generateOTP rand, expires_at := now + OTP_EXPIRY_MINUTES,
    created_at := now, verified := false, attempts := 0 }

/-- The row `POST /api/send-phone-otp` inserts (for an already
normalized number `p`). -/
def phoneOtpRecord (p : String) (rand now idv : Nat) : OtpRecord :=
  { id := idv, type := "phone", email := none, phone := some p,
    otp_code := generateOTP rand, expires_at := now + OTP_EXPIRY_MINUTES,
    created_at := now, verified := false, attempts := 0 }

/-- Phone normalization as claim C7 words it: remove every character
except ASCII digits and a LEADING plus sign, then prepend the default
country code `+1` when the result does not start with `+`. -/
def claimFormatPhoneNumber (phone : String) : String :=
  let kept := (if phone.data.head? = some '+' then ['+'] else []) ++
    phone.data.filter Char.isDigit
  if kept.head? = some '+' then String.mk kept else String.mk ('+' :: '1' :: kept)

/-- The code+destination part of the main lookup filter (everything except
the liveness conditions `verified = false` and `expires_at > now`). -/
def codeDestFilter (tyS otpS : String) (email fphone : Option String) (r : OtpRecord) : Bool :=
  decide (r.type = tyS) && decide (r.otp_code = otpS) &&
    (if tyS = "email" then sqlEq r.email email else sqlEq r.phone fphone)

/-! Helper lemmas about the embedded definitions. -/

theorem mk_length (l : List Char) : (String.mk l).length = l.length := rfl

theorem mk_data (l : List Char) : (String.mk l).data = l := rfl

theorem decDigitsCore_zero (fuel : Nat) : decDigitsCore fuel 0 = [] := by
  cases fuel <;> rfl

theorem isDigit_ofNat (m : Nat) (h : m < 10) : (Char.ofNat (48 + m)).isDigit = true := by
  interval_cases m <;> decide

theorem decDigitsCore_length : ∀ (fuel k n : Nat), 10 ^ k ≤ n → n < 10 ^ (k + 1) → n ≤ fuel →
    (decDigitsCore fuel n).length = k + 1 := by
  intro fuel
  induction fuel with
  | zero =>
    intro k n h1 h2 h3
    have hpow : 0 < 10 ^ k := Nat.pow_pos (by norm_num)
    omega
  | succ f ih =>
    intro k n h1 h2 h3
    have hpow : 0 < 10 ^ k := Nat.pow_pos (by norm_num)
    have hne : ¬ n = 0 := by omega
    simp only [decDigitsCore, if_neg hne, List.length_append, List.length_cons,
      List.length_nil]
    cases k with
    | zero =>
      have h10 : n < 10 := by simpa using h2
      rw [Nat.div_eq_of_lt h10, decDigitsCore_zero]
      rfl
    | succ k' =>
      have hb1 : 10 ^ k' ≤ n / 10 := by
        rw [Nat.le_div_iff_mul_le (by norm_num : 0 < 10)]
        calc 10 ^ k' * 10 = 10 ^ (k' + 1) := (pow_succ 10 k').symm
          _ ≤ n := h1
      have hb2 : n / 10 < 10 ^ (k' + 1) := by
        rw [Nat.div_lt_iff_lt_mul (by norm_num : 0 < 10)]
        calc n < 10 ^ (k' + 1 + 1) := h2
          _ = 10 ^ (k' + 1) * 10 := pow_succ 10 (k' + 1)
      have hb3 : n / 10 ≤ f := by
        have := Nat.div_lt_self (by omega : 0 < n) (by norm_num : 1 < 10)
        omega
      rw [ih k' (n / 10) hb1 hb2 hb3]

theorem decDigitsCore_digits : ∀ (fuel n : Nat),
    (decDigitsCore fuel n).all Char.isDigit = true := by
  intro fuel
  induction fuel with
  | zero => intro n; rfl
  | succ f ih =>
    intro n
    by_cases hn : n = 0
    · simp [decDigitsCore, hn]
    · simp only [decDigitsCore, if_neg hn, List.all_append, ih, List.all_cons,
        List.all_nil, Bool.and_true, Bool.true_and]
      exact isDigit_ofNat (n % 10) (Nat.mod_lt _ (by norm_num))

theorem generateOTP_length (rand : Nat) : (generateOTP rand).length = OTP_LENGTH := by
  have hmod : rand % 900000 < 900000 := Nat.mod_lt _ (by norm_num)
  have hne : ¬ 100000 + rand % 900000 = 0 := by omega
  have hp1 : 10 ^ 5 ≤ 100000 + rand % 900000 := by
    calc 10 ^ 5 = 100000 := by norm_num
      _ ≤ 100000 + rand % 900000 := Nat.le_add_right _ _
  have hp2 : 100000 + rand % 900000 < 10 ^ (5 + 1) := by
    calc 100000 + rand % 900000 < 1000000 := by omega
      _ = 10 ^ (5 + 1) := by norm_num
  simp only [generateOTP, natToDecimal, if_neg hne, mk_length, OTP_LENGTH]
  exact decDigitsCore_length _ 5 _ hp1 hp2 (Nat.le_refl _)

theorem generateOTP_digits (rand : Nat) :
    (generateOTP rand).data.all Char.isDigit = true := by
  have hne : ¬ 100000 + rand % 900000 = 0 := by
    have := Nat.mod_lt rand (show 0 < 900000 by norm_num)
    omega
  simp only [generateOTP, natToDecimal, if_neg hne, mk_data]
  exact decDigitsCore_digits _ _

theorem generateOTP_ne_empty (rand : Nat) : generateOTP rand ≠ "" := by
  intro h
  have hl := generateOTP_length rand
  rw [h] at hl
  simp [OTP_LENGTH] at hl

theorem latest_singleton (r : OtpRecord) : latest [r] = some r := rfl

theorem latest_go_mem : ∀ (l : List OtpRecord) (a r : OtpRecord),
    l.foldl (fun acc x =>
      match acc with
      | none => some x
      | some b => some (pickNewer b x)) (some a) = some r → r = a ∨ r ∈ l := by
  intro l
  induction l with
  | nil =>
    intro a r h
    simp only [List.foldl_nil, Option.some.injEq] at h
    exact Or.inl h.symm
  | cons x xs ih =>
    intro a r h
    simp only [List.foldl_cons] at h
    rcases ih (pickNewer a x) r h with h1 | h1
    · unfold pickNewer at h1
      by_cases hc : a.created_at < x.created_at ∨ (a.created_at = x.created_at ∧ a.id < x.id)
      · rw [if_pos hc] at h1
        exact Or.inr (by simp [h1])
      · rw [if_neg hc] at h1
        exact Or.inl h1
    · exact Or.inr (List.mem_cons_of_mem _ h1)

theorem latest_mem {l : List OtpRecord} {r : OtpRecord} (h : latest l = some r) : r ∈ l := by
  cases l with
  | nil => simp [latest] at h
  | cons x xs =>
    simp only [latest, List.foldl_cons] at h
    rcases latest_go_mem xs x r h with h1 | h1
    · simp [h1]
    · exact List.mem_cons_of_mem _ h1

theorem invalidateFor_breaks (p : OtpRecord → Bool)
    (hp : ∀ r : OtpRecord, p { r with verified := true } = false) (l : List OtpRecord) :
    ∀ rec ∈ invalidateFor p l, p rec = false := by
  intro rec hrec
  simp only [invalidateFor, List.mem_map] at hrec
  obtain ⟨x, _, hfx⟩ := hrec
  by_cases hx : p x = true
  · rw [if_pos hx] at hfx
    rw [← hfx]
    exact hp x
  · rw [if_neg hx] at hfx
    rw [← hfx]
    exact Bool.eq_false_iff.mpr hx

theorem invalidationFilterEmail_verified (e : String) (r : OtpRecord) :
    invalidationFilterEmail e { r with verified := true } = false := by
  simp [invalidationFilterEmail]

theorem invalidationFilterPhone_verified (p : String) (r : OtpRecord) :
    invalidationFilterPhone p { r with verified := true } = false := by
  simp [invalidationFilterPhone]

theorem live_implies_invalidation_email (e otpS : String) (fphone : Option String)
    (now : Nat) (r : OtpRecord)
    (h : verifyLiveFilter "email" otpS (some e) fphone now r = true) :
    invalidationFilterEmail e r = true := by
  simp only [verifyLiveFilter, Bool.and_eq_true, decide_eq_true_eq] at h
  obtain ⟨⟨⟨⟨hty, hcode⟩, hver⟩, hexp⟩, hdest⟩ := h
  have hdest' : sqlEq r.email (some e) = true := by simpa using hdest
  simp only [invalidationFilterEmail, Bool.and_eq_true, decide_eq_true_eq]
  exact ⟨⟨hdest', hty⟩, hver⟩

theorem live_implies_invalidation_phone (p otpS : String) (email : Option String)
    (now : Nat) (r : OtpRecord)
    (h : verifyLiveFilter "phone" otpS email (some p) now r = true) :
    invalidationFilterPhone p r = true := by
  have hne : ¬ ("phone" : String) = "email" := by decide
  simp only [verifyLiveFilter, Bool.and_eq_true, decide_eq_true_eq, if_neg hne] at h
  obtain ⟨⟨⟨⟨hty, hcode⟩, hver⟩, hexp⟩, hdest⟩ := h
  simp only [invalidationFilterPhone, Bool.and_eq_true, decide_eq_true_eq]
  exact ⟨⟨hdest, hty⟩, hver⟩

theorem filter_invalidated_email (e otpS : String) (fphone : Option String) (now : Nat)
    (l : List OtpRecord) :
    (invalidateFor (invalidationFilterEmail e) l).filter
      (verifyLiveFilter "email" otpS (some e) fphone now) = [] := by
  rw [List.filter_eq_nil_iff]
  intro a ha hlive
  have h1 := invalidateFor_breaks (invalidationFilterEmail e)
    (invalidationFilterEmail_verified e) l a ha
  have h2 := live_implies_invalidation_email e otpS fphone now a hlive
  rw [h1] at h2
  exact Bool.false_ne_true h2

theorem filter_invalidated_phone (p otpS : String) (email : Option String) (now : Nat)
    (l : List OtpRecord) :
    (invalidateFor (invalidationFilterPhone p) l).filter
      (verifyLiveFilter "phone" otpS email (some p) now) = [] := by
  rw [List.filter_eq_nil_iff]
  intro a ha hlive
  have h1 := invalidateFor_breaks (invalidationFilterPhone p)
    (invalidationFilterPhone_verified p) l a ha
  have h2 := live_implies_invalidation_phone p otpS email now a hlive
  rw [h1] at h2
  exact Bool.false_ne_true h2

theorem issueEmailOtp_store (e env : String) (sg sf : Bool) (rand now : Nat) (s : Store)
    (he : e ≠ "") (hreg : emailRegexTest e = true) :
    (issueEmailOtp (some e) env sg sf false rand now s).2.1 =
      ⟨invalidateFor (invalidationFilterEmail e) s.records ++
        [emailOtpRecord e rand now s.nextId], s.nextId + 1⟩ := by
  have htr : truthy (some e) = true := by simp [truthy, he]
  simp only [issueEmailOtp, htr, Option.getD_some, hreg, emailOtpRecord]
  cases sg <;> cases sf <;> by_cases henv : env = "production" <;> simp [henv]

theorem issueEmailOtp_trace (e env : String) (sg sf : Bool) (rand now : Nat) (s : Store)
    (he : e ≠ "") (hreg : emailRegexTest e = true) :
    (issueEmailOtp (some e) env sg sf false rand now s).2.2 = [.update, .insert] := by
  have htr : truthy (some e) = true := by simp [truthy, he]
  simp only [issueEmailOtp, htr, Option.getD_some, hreg]
  cases sg <;> cases sf <;> by_cases henv : env = "production" <;> simp [henv]

theorem issueEmailOtp_dev (e : String) (sg sf : Bool) (rand now : Nat) (s : Store)
    (he : e ≠ "") (hreg : emailRegexTest e = true) :
    (issueEmailOtp (some e) "development" sg sf false rand now s).1 =
      .ok (some (generateOTP rand)) := by
  have htr : truthy (some e) = true := by simp [truthy, he]
  simp only [issueEmailOtp, htr, Option.getD_some, hreg]
  cases sg <;> cases sf <;> simp

theorem issuePhoneOtp_store (p0 env : String) (smsf : Bool) (rand now : Nat) (s : Store)
    (hp : p0 ≠ "") :
    (issuePhoneOtp (some p0) env true smsf false rand now s).2.1 =
      ⟨invalidateFor (invalidationFilterPhone (formatPhoneNumber p0)) s.records ++
        [phoneOtpRecord (formatPhoneNumber p0) rand now s.nextId], s.nextId + 1⟩ := by
  have htr : truthy (some p0) = true := by simp [truthy, hp]
  simp only [issuePhoneOtp, htr, Option.getD_some, phoneOtpRecord]
  cases smsf <;> simp

theorem issuePhoneOtp_dev (p0 : String) (rand now : Nat) (s : Store) (hp : p0 ≠ "") :
    (issuePhoneOtp (some p0) "development" true false false rand now s).1 =
      .ok (some (generateOTP rand)) := by
  have htr : truthy (some p0) = true := by simp [truthy, hp]
  simp [issuePhoneOtp, htr]

theorem issuePhoneOtp_smsFail (p0 env : String) (rand now : Nat) (s : Store) (hp : p0 ≠ "") :
    (issuePhoneOtp (some p0) env true true false rand now s).1 = .smsDispatchError := by
  have htr : truthy (some p0) = true := by simp [truthy, hp]
  simp [issuePhoneOtp, htr]

theorem verifyOtp_valid (email phone otp ty : Option String) (now : Nat) (inc : Bool)
    (s : Store) (h1 : truthy otp = true) (h2 : truthy ty = true)
    (h3 : ty.getD "" = "email" → truthy email = true)
    (h4 : ty.getD "" = "phone" → truthy phone = true)
    (h5 : (otp.getD "").length = OTP_LENGTH)
    (h6 : (otp.getD "").data.all Char.isDigit = true) :
    verifyOtp email phone otp ty now inc s = verifyCore email phone otp ty now inc s := by
  unfold verifyOtp
  rw [if_neg (show ¬(truthy otp = false ∨ truthy ty = false) by simp [h1, h2])]
  rw [if_neg (show ¬(ty.getD "" = "email" ∧ truthy email = false) from
    fun hc => by simp [h3 hc.1] at hc)]
  rw [if_neg (show ¬(ty.getD "" = "phone" ∧ truthy phone = false) from
    fun hc => by simp [h4 hc.1] at hc)]
  rw [if_neg (show ¬((otp.getD "").length ≠ OTP_LENGTH ∨
    (otp.getD "").data.all Char.isDigit = false) by simp [h5, h6])]

theorem verifyCore_max (email phone otp ty : Option String) (now : Nat) (inc : Bool)
    (s : Store) (r : OtpRecord) (hlook : verifyLookup email phone otp ty now s = some r)
    (hatt : MAX_OTP_ATTEMPTS ≤ r.attempts) :
    verifyCore email phone otp ty now inc s = (.maxAttemptsExceeded, s, [.select]) := by
  simp [verifyCore, hlook, hatt]

theorem verifyCore_success (email phone otp ty : Option String) (now : Nat) (inc : Bool)
    (s : Store) (r : OtpRecord) (hlook : verifyLookup email phone otp ty now s = some r)
    (hatt : r.attempts < MAX_OTP_ATTEMPTS) :
    verifyCore email phone otp ty now inc s =
      (.verifiedOk,
       { s with records := updateById r.id (fun x => { x with verified := true }) s.records },
       [.select, .update]) := by
  simp [verifyCore, hlook, Nat.not_le.mpr hatt]

theorem verifyCore_nomatch_inc (email phone otp ty : Option String) (now : Nat)
    (s : Store) (r0 : OtpRecord)
    (hlook : verifyLookup email phone otp ty now s = none)
    (hrec : verifyRecent email phone ty s = some r0) :
    verifyCore email phone otp ty now false s =
      (.invalidOrExpired,
       { s with records := updateById r0.id (fun x => { x with attempts := r0.attempts + 1 }) s.records },
       [.select, .select, .update]) := by
  simp [verifyCore, hlook, hrec]

theorem verifyCore_nomatch_result (email phone otp ty : Option String) (now : Nat)
    (inc : Bool) (s : Store) (hlook : verifyLookup email phone otp ty now s = none) :
    (verifyCore email phone otp ty now inc s).1 = .invalidOrExpired := by
  simp only [verifyCore, hlook]
  cases hr : verifyRecent email phone ty s <;> simp

/-! Claim C7 (phone normalization). -/

/-- C7 counterexample: on `"1+2"` the code keeps the interior `+`
(yielding `"+11+2"`), while the claimed normalization (digits plus a
leading `+` only) would yield `"+112"`. -/
theorem c7_phone_normalization_counterexample :
    formatPhoneNumber "1+2" = "+11+2" ∧ claimFormatPhoneNumber "1+2" = "+112" ∧
      formatPhoneNumber "1+2" ≠ claimFormatPhoneNumber "1+2" := by
  refine ⟨by decide, by decide, by decide⟩

/-- C7 amended: normalization removes every character except ASCII digits
and `+` signs (a `+` is kept wherever it occurs, not only in leading
position); if the cleaned string does not start with `+`, `+1` is
prepended.  Hence the result always starts with `+` and consists only of
digits and `+` signs, the cleaned characters form a suffix of the result,
and the two examples cited by the spec hold, as does the interior-plus
example. -/
theorem c7_phone_normalization_amended :
    (∀ s : String,
      (formatPhoneNumber s).data.head? = some '+' ∧
      (formatPhoneNumber s).data.all (fun c => c.isDigit || c == '+') = true ∧
      (s.data.filter (fun c => c.isDigit || c == '+')) <:+ (formatPhoneNumber s).data) ∧
    formatPhoneNumber "(555) 123-4567" = "+15551234567" ∧
    formatPhoneNumber "+44 20 7946 0958" = "+442079460958" ∧
    formatPhoneNumber "1+2" = "+11+2" := by
  refine ⟨?_, by decide, by decide, by decide⟩
  intro s
  have hall : (s.data.filter (fun c => c.isDigit || c == '+')).all
      (fun c => c.isDigit || c == '+') = true := by
    rw [List.all_eq_true]
    intro x hx
    exact (List.mem_filter.mp hx).2
  unfold formatPhoneNumber
  by_cases h : (s.data.filter fun c => c.isDigit || c == '+').head? = some '+'
  · rw [if_pos h]
    exact ⟨h, hall, ⟨[], rfl⟩⟩
  · rw [if_neg h]
    refine ⟨rfl, ?_, ⟨['+', '1'], rfl⟩⟩
    simp only [mk_data, List.all_cons, hall, Bool.and_true]
    decide

/-! Claim C8 (validation errors happen before any store interaction). -/

/-- C8: a present email that fails the structural pattern makes
`POST /api/send-email-otp` answer with the validation error, with the
store untouched and no store operation issued; a present code that is not
exactly six ASCII digits makes `POST /api/verify-otp` answer with the
format validation error, with the store untouched and no store operation
issued. -/
theorem c8_validation_before_store :
    (∀ (e env : String) (sg sf insf : Bool) (rand now : Nat) (s : Store),
      e ≠ "" → emailRegexTest e = false →
      issueEmailOtp (some e) env sg sf insf rand now s = (.invalidEmailFormat, s, [])) ∧
    (∀ (email phone otp ty : Option String) (now : Nat) (inc : Bool) (s : Store),
      truthy otp = true → truthy ty = true →
      (ty.getD "" = "email" → truthy email = true) →
      (ty.getD "" = "phone" → truthy phone = true) →
      ((otp.getD "").length ≠ OTP_LENGTH ∨ (otp.getD "").data.all Char.isDigit = false) →
      verifyOtp email phone otp ty now inc s = (.badFormat, s, [])) := by
  constructor
  · intro e env sg sf insf rand now s he hreg
    have htr : truthy (some e) = true := by simp [truthy, he]
    simp [issueEmailOtp, htr, hreg]
  · intro email phone otp ty now inc s h1 h2 h3 h4 h5
    unfold verifyOtp
    rw [if_neg (show ¬(truthy otp = false ∨ truthy ty = false) by simp [h1, h2])]
    rw [if_neg (show ¬(ty.getD "" = "email" ∧ truthy email = false) from
      fun hc => by simp [h3 hc.1] at hc)]
    rw [if_neg (show ¬(ty.getD "" = "phone" ∧ truthy phone = false) from
      fun hc => by simp [h4 hc.1] at hc)]
    rw [if_pos h5]

/-- C8 witness: the concrete malformed inputs named by the spec. -/
theorem c8_validation_before_store_witness :
    issueEmailOtp (some "not-an-email") "development" true false false 0 0 ⟨[], 0⟩ =
      (.invalidEmailFormat, ⟨[], 0⟩, []) ∧
    verifyOtp (some "a@b.com") none (some "12a45") (some "email") 0 false ⟨[], 0⟩ =
      (.badFormat, ⟨[], 0⟩, []) ∧
    verifyOtp (some "a@b.com") none (some "123") (some "email") 0 false ⟨[], 0⟩ =
      (.badFormat, ⟨[], 0⟩, []) := by
  refine ⟨c8_validation_before_store.1 "not-an-email" "development" true false false 0 0
      ⟨[], 0⟩ (by decide) (by decide),
    c8_validation_before_store.2 (some "a@b.com") none (some "12a45") (some "email") 0 false
      ⟨[], 0⟩ (by decide) (by decide) (fun _ => by decide)
      (fun hc => absurd hc (by decide)) (by decide),
    c8_validation_before_store.2 (some "a@b.com") none (some "123") (some "email") 0 false
      ⟨[], 0⟩ (by decide) (by decide) (fun _ => by decide)
      (fun hc => absurd hc (by decide)) (by decide)⟩

/-! Claim C6 (the code is echoed only in development). -/

/-- C6: an issue response that carries the literal code can only arise
with deployment mode `development`; in `production` the response is the
same whatever code the generator drew (so the production response is
independent of the generated code and never contains it). -/
theorem c6_code_echo_only_in_development :
    (∀ (email : Option String) (env : String) (sg sf insf : Bool) (rand now : Nat)
      (s : Store) (c : String),
      (issueEmailOtp email env sg sf insf rand now s).1 = .ok (some c) →
      env = "development") ∧
    (∀ (phone : Option String) (env : String) (tw smsf insf : Bool) (rand now : Nat)
      (s : Store) (c : String),
      (issuePhoneOtp phone env tw smsf insf rand now s).1 = .ok (some c) →
      env = "development") ∧
    (∀ (email : Option String) (sg sf insf : Bool) (r₁ r₂ now : Nat) (s : Store),
      (issueEmailOtp email "production" sg sf insf r₁ now s).1 =
        (issueEmailOtp email "production" sg sf insf r₂ now s).1) ∧
    (∀ (phone : Option String) (tw smsf insf : Bool) (r₁ r₂ now : Nat) (s : Store),
      (issuePhoneOtp phone "production" tw smsf insf r₁ now s).1 =
        (issuePhoneOtp phone "production" tw smsf insf r₂ now s).1) := by
  refine ⟨?_, ?_, ?_, ?_⟩
  · intro email env sg sf insf rand now s c h
    by_cases henv : env = "development"
    · exact henv
    · exfalso
      simp only [issueEmailOtp] at h
      split_ifs at h
      all_goals simp [henv] at h
  · intro phone env tw smsf insf rand now s c h
    by_cases henv : env = "development"
    · exact henv
    · exfalso
      simp only [issuePhoneOtp] at h
      split_ifs at h
      all_goals simp [henv] at h
  · intro email sg sf insf r₁ r₂ now s
    simp only [issueEmailOtp]
    split_ifs
    all_goals simp_all
  · intro phone tw smsf insf r₁ r₂ now s
    simp only [issuePhoneOtp]
    split_ifs
    all_goals simp_all

/-- C6 witness: a development issuance echoes the code; a production one
does not. -/
theorem c6_code_echo_only_in_development_witness :
    (issueEmailOtp (some "a@b.com") "development" true false false 7 0 ⟨[], 0⟩).1 =
      .ok (some "100007") ∧
    ("development" : String) = "development" ∧
    (issueEmailOtp (some "a@b.com") "production" true false false 7 0 ⟨[], 0⟩).1 =
      (issueEmailOtp (some "a@b.com") "production" true false false 8 0 ⟨[], 0⟩).1 :=
  ⟨by decide,
   c6_code_echo_only_in_development.1 (some "a@b.com") "development" true false false 7 0
     ⟨[], 0⟩ "100007" (by decide),
   c6_code_echo_only_in_development.2.2.1 (some "a@b.com") true false false 7 8 0 ⟨[], 0⟩⟩

/-! Claim C3 (max attempts rejects even the correct code, state untouched). -/

/-- C3: when the lookup finds a live matching row whose attempts counter
has reached `MAX_OTP_ATTEMPTS`, the verify call answers
`maxAttemptsExceeded` and returns the store exactly as it was (no
`verified` flip, no attempts change, no further store operation beyond the
lookup). -/
theorem c3_max_attempts_rejects_correct_code (email phone otp ty : Option String)
    (now : Nat) (inc : Bool) (s : Store) (r : OtpRecord)
    (h1 : truthy otp = true) (h2 : truthy ty = true)
    (h3 : ty.getD "" = "email" → truthy email = true)
    (h4 : ty.getD "" = "phone" → truthy phone = true)
    (h5 : (otp.getD "").length = OTP_LENGTH)
    (h6 : (otp.getD "").data.all Char.isDigit = true)
    (hlook : verifyLookup email phone otp ty now s = some r)
    (hatt : MAX_OTP_ATTEMPTS ≤ r.attempts) :
    verifyOtp email phone otp ty now inc s = (.maxAttemptsExceeded, s, [.select]) := by
  rw [verifyOtp_valid email phone otp ty now inc s h1 h2 h3 h4 h5 h6]
  exact verifyCore_max email phone otp ty now inc s r hlook hatt

/-- C3 witness: a concrete store with a live matching row at 5 attempts. -/
theorem c3_max_attempts_rejects_correct_code_witness :
    verifyOtp (some "a@b.com") none (some "123456") (some "email") 100 false
      ⟨[⟨0, "email", some "a@b.com", none, "123456", 200, 0, false, 5⟩], 1⟩ =
      (.maxAttemptsExceeded,
       ⟨[⟨0, "email", some "a@b.com", none, "123456", 200, 0, false, 5⟩], 1⟩,
       [.select]) :=
  c3_max_attempts_rejects_correct_code (some "a@b.com") none (some "123456") (some "email")
    100 false ⟨[⟨0, "email", some "a@b.com", none, "123456", 200, 0, false, 5⟩], 1⟩
    ⟨0, "email", some "a@b.com", none, "123456", 200, 0, false, 5⟩
    (by decide) (by decide) (fun _ => by decide) (fun hc => absurd hc (by decide))
    (by decide) (by decide) (by decide) (by decide)

/-! Claim C9 (SMS dispatch failure is reported but not rolled back). -/

/-- C9: when the Twilio send fails, `POST /api/send-phone-otp` answers
with the dispatch error, yet the store keeps the state mutated before the
send: the fresh row (unverified, zero attempts) is present, and every
prior unverified row for that normalized number and kind has been flipped
to verified. -/
theorem c9_sms_failure_not_rolled_back (p0 env : String) (rand now : Nat) (s : Store)
    (hp : p0 ≠ "") :
    (issuePhoneOtp (some p0) env true true false rand now s).1 = .smsDispatchError ∧
    phoneOtpRecord (formatPhoneNumber p0) rand now s.nextId ∈
      (issuePhoneOtp (some p0) env true true false rand now s).2.1.records ∧
    (phoneOtpRecord (formatPhoneNumber p0) rand now s.nextId).verified = false ∧
    (phoneOtpRecord (formatPhoneNumber p0) rand now s.nextId).attempts = 0 ∧
    (∀ rec ∈ s.records, invalidationFilterPhone (formatPhoneNumber p0) rec = true →
      { rec with verified := true } ∈
        (issuePhoneOtp (some p0) env true true false rand now s).2.1.records) := by
  refine ⟨issuePhoneOtp_smsFail p0 env rand now s hp, ?_, rfl, rfl, ?_⟩
  · rw [issuePhoneOtp_store p0 env true rand now s hp]
    simp
  · intro rec hrec hfil
    rw [issuePhoneOtp_store p0 env true rand now s hp]
    apply List.mem_append_left
    simp only [invalidateFor, List.mem_map]
    exact ⟨rec, hrec, by rw [if_pos hfil]⟩

/-- C9 witness: a store holding one unverified row for the number; after a
failed SMS dispatch the row is invalidated and the new row remains. -/
theorem c9_sms_failure_not_rolled_back_witness :
    (issuePhoneOtp (some "(555) 123-4567") "production" true true false 3 50
        ⟨[⟨0, "phone", none, some "+15551234567", "111111", 40, 30, false, 2⟩], 1⟩).1 =
      .smsDispatchError ∧
    phoneOtpRecord "+15551234567" 3 50 1 ∈
      (issuePhoneOtp (some "(555) 123-4567") "production" true true false 3 50
        ⟨[⟨0, "phone", none, some "+15551234567", "111111", 40, 30, false, 2⟩], 1⟩).2.1.records ∧
    (⟨0, "phone", none, some "+15551234567", "111111", 40, 30, true, 2⟩ : OtpRecord) ∈
      (issuePhoneOtp (some "(555) 123-4567") "production" true true false 3 50
        ⟨[⟨0, "phone", none, some "+15551234567", "111111", 40, 30, false, 2⟩], 1⟩).2.1.records := by
  have h := c9_sms_failure_not_rolled_back "(555) 123-4567" "production" 3 50
    ⟨[⟨0, "phone", none, some "+15551234567", "111111", 40, 30, false, 2⟩], 1⟩ (by decide)
  refine ⟨h.1, by simpa using h.2.1, ?_⟩
  have h5 := h.2.2.2.2 ⟨0, "phone", none, some "+15551234567", "111111", 40, 30, false, 2⟩
    (by decide) (by decide)
  simpa using h5

/-! Lookup computations on a store produced by an issuance. -/

theorem formattedPhoneOf_some (p0 : String) (hp : p0 ≠ "") :
    formattedPhoneOf (some p0) = some (formatPhoneNumber p0) := by
  simp [formattedPhoneOf, truthy, hp]

theorem verifyLookup_after_issueEmail_same (e : String) (rand now now2 nid : Nat)
    (l : List OtpRecord) (hnow : now2 < now + OTP_EXPIRY_MINUTES) :
    verifyLookup (some e) none (some (generateOTP rand)) (some "email") now2
      ⟨invalidateFor (invalidationFilterEmail e) l ++ [emailOtpRecord e rand now nid],
        nid + 1⟩ =
      some (emailOtpRecord e rand now nid) := by
  unfold verifyLookup
  simp only [Option.getD_some]
  rw [List.filter_append, filter_invalidated_email]
  have hf : verifyLiveFilter "email" (generateOTP rand) (some e) (formattedPhoneOf none)
      now2 (emailOtpRecord e rand now nid) = true := by
    simp [verifyLiveFilter, emailOtpRecord, sqlEq, hnow]
  simp [hf, latest_singleton]

theorem verifyLookup_after_issueEmail_other (e c : String) (rand now now2 nid : Nat)
    (l : List OtpRecord) (hne : c ≠ generateOTP rand) :
    verifyLookup (some e) none (some c) (some "email") now2
      ⟨invalidateFor (invalidationFilterEmail e) l ++ [emailOtpRecord e rand now nid],
        nid + 1⟩ = none := by
  unfold verifyLookup
  simp only [Option.getD_some]
  rw [List.filter_append, filter_invalidated_email]
  have hf : verifyLiveFilter "email" c (some e) (formattedPhoneOf none) now2
      (emailOtpRecord e rand now nid) = false := by
    simp [verifyLiveFilter, emailOtpRecord, Ne.symm hne]
  simp [hf, latest]

theorem verifyLookup_after_issuePhone_same (p0 : String) (rand now now2 nid : Nat)
    (l : List OtpRecord) (hp : p0 ≠ "") (hnow : now2 < now + OTP_EXPIRY_MINUTES) :
    verifyLookup none (some p0) (some (generateOTP rand)) (some "phone") now2
      ⟨invalidateFor (invalidationFilterPhone (formatPhoneNumber p0)) l ++
        [phoneOtpRecord (formatPhoneNumber p0) rand now nid], nid + 1⟩ =
      some (phoneOtpRecord (formatPhoneNumber p0) rand now nid) := by
  unfold verifyLookup
  simp only [Option.getD_some, formattedPhoneOf_some p0 hp]
  rw [List.filter_append, filter_invalidated_phone]
  have hf : verifyLiveFilter "phone" (generateOTP rand) none (some (formatPhoneNumber p0))
      now2 (phoneOtpRecord (formatPhoneNumber p0) rand now nid) = true := by
    simp [verifyLiveFilter, phoneOtpRecord, sqlEq, hnow]
  simp [hf, latest_singleton]

theorem verifyLookup_after_issuePhone_other (p0 c : String) (rand now now2 nid : Nat)
    (l : List OtpRecord) (hp : p0 ≠ "") (hne : c ≠ generateOTP rand) :
    verifyLookup none (some p0) (some c) (some "phone") now2
      ⟨invalidateFor (invalidationFilterPhone (formatPhoneNumber p0)) l ++
        [phoneOtpRecord (formatPhoneNumber p0) rand now nid], nid + 1⟩ = none := by
  unfold verifyLookup
  simp only [Option.getD_some, formattedPhoneOf_some p0 hp]
  rw [List.filter_append, filter_invalidated_phone]
  have hf : verifyLiveFilter "phone" c none (some (formatPhoneNumber p0)) now2
      (phoneOtpRecord (formatPhoneNumber p0) rand now nid) = false := by
    simp [verifyLiveFilter, phoneOtpRecord, Ne.symm hne]
  simp [hf, latest]

/-! Claim C1 (issue then verify round-trips in development mode). -/

/-- C1: for a structurally valid email, issuing in development mode
answers `ok` carrying the generated code, and immediately verifying that
code (same destination and kind, same instant, no intervening operation)
answers `verifiedOk`. -/
theorem c1_issue_verify_roundtrip (e : String) (sg sf : Bool) (rand now : Nat) (s : Store)
    (hreg : emailRegexTest e = true) :
    (issueEmailOtp (some e) "development" sg sf false rand now s).1 =
      .ok (some (generateOTP rand)) ∧
    (verifyOtp (some e) none (some (generateOTP rand)) (some "email") now false
        (issueEmailOtp (some e) "development" sg sf false rand now s).2.1).1 =
      .verifiedOk := by
  have he : e ≠ "" := fun h => by rw [h] at hreg; exact absurd hreg (by decide)
  refine ⟨issueEmailOtp_dev e sg sf rand now s he hreg, ?_⟩
  rw [issueEmailOtp_store e "development" sg sf rand now s he hreg]
  rw [verifyOtp_valid _ _ _ _ _ _ _ (by simp [truthy, generateOTP_ne_empty rand]) (by decide)
    (fun _ => by simp [truthy, he]) (fun hc => absurd hc (by decide))
    (by simpa using generateOTP_length rand) (by simpa using generateOTP_digits rand)]
  rw [verifyCore_success _ _ _ _ _ _ _ _
    (verifyLookup_after_issueEmail_same e rand now now s.nextId s.records
      (by simp only [OTP_EXPIRY_MINUTES]; omega))
    (by simp only [emailOtpRecord, MAX_OTP_ATTEMPTS]; omega)]

/-- C1 witness: the round trip at `a@b.com`. -/
theorem c1_issue_verify_roundtrip_witness :
    emailRegexTest "a@b.com" = true ∧
    (issueEmailOtp (some "a@b.com") "development" true false false 7 100 ⟨[], 0⟩).1 =
      .ok (some (generateOTP 7)) ∧
    (verifyOtp (some "a@b.com") none (some (generateOTP 7)) (some "email") 100 false
        (issueEmailOtp (some "a@b.com") "development" true false false 7 100 ⟨[], 0⟩).2.1).1 =
      .verifiedOk := by
  have h := c1_issue_verify_roundtrip "a@b.com" true false 7 100 ⟨[], 0⟩ (by decide)
  exact ⟨by decide, h.1, h.2⟩

/-! Claim C2 (reissue invalidates all prior unverified codes). -/

/-- C2: issuing a new code flips every prior unverified row for that
destination and kind to verified (both kinds), and in the double-issue
scenario (two issuances whose generated codes differ) verifying the first
code afterwards answers `invalidOrExpired` while verifying the newest code
answers `verifiedOk` (again for both kinds). -/
theorem c2_reissue_invalidates_prior :
    (∀ (e env : String) (sg sf : Bool) (rand now : Nat) (s : Store) (rec : OtpRecord),
      emailRegexTest e = true → rec ∈ s.records → invalidationFilterEmail e rec = true →
      { rec with verified := true } ∈
        (issueEmailOtp (some e) env sg sf false rand now s).2.1.records) ∧
    (∀ (p0 env : String) (smsf : Bool) (rand now : Nat) (s : Store) (rec : OtpRecord),
      p0 ≠ "" → rec ∈ s.records →
      invalidationFilterPhone (formatPhoneNumber p0) rec = true →
      { rec with verified := true } ∈
        (issuePhoneOtp (some p0) env true smsf false rand now s).2.1.records) ∧
    (∀ (e env₁ env₂ : String) (sg₁ sf₁ sg₂ sf₂ : Bool) (r₁ r₂ now₁ now₂ : Nat) (s : Store),
      emailRegexTest e = true → generateOTP r₁ ≠ generateOTP r₂ →
      (verifyOtp (some e) none (some (generateOTP r₁)) (some "email") now₂ false
          (issueEmailOtp (some e) env₂ sg₂ sf₂ false r₂ now₂
            (issueEmailOtp (some e) env₁ sg₁ sf₁ false r₁ now₁ s).2.1).2.1).1 =
        .invalidOrExpired ∧
      (verifyOtp (some e) none (some (generateOTP r₂)) (some "email") now₂ false
          (issueEmailOtp (some e) env₂ sg₂ sf₂ false r₂ now₂
            (issueEmailOtp (some e) env₁ sg₁ sf₁ false r₁ now₁ s).2.1).2.1).1 =
        .verifiedOk) ∧
    (∀ (p0 env₁ env₂ : String) (smsf₁ smsf₂ : Bool) (r₁ r₂ now₁ now₂ : Nat) (s : Store),
      p0 ≠ "" → generateOTP r₁ ≠ generateOTP r₂ →
      (verifyOtp none (some p0) (some (generateOTP r₁)) (some "phone") now₂ false
          (issuePhoneOtp (some p0) env₂ true smsf₂ false r₂ now₂
            (issuePhoneOtp (some p0) env₁ true smsf₁ false r₁ now₁ s).2.1).2.1).1 =
        .invalidOrExpired ∧
      (verifyOtp none (some p0) (some (generateOTP r₂)) (some "phone") now₂ false
          (issuePhoneOtp (some p0) env₂ true smsf₂ false r₂ now₂
            (issuePhoneOtp (some p0) env₁ true smsf₁ false r₁ now₁ s).2.1).2.1).1 =
        .verifiedOk) := by
  refine ⟨?_, ?_, ?_, ?_⟩
  · intro e env sg sf rand now s rec hreg hmem hfil
    have he : e ≠ "" := fun h => by rw [h] at hreg; exact absurd hreg (by decide)
    rw [issueEmailOtp_store e env sg sf rand now s he hreg]
    apply List.mem_append_left
    simp only [invalidateFor, List.mem_map]
    exact ⟨rec, hmem, by rw [if_pos hfil]⟩
  · intro p0 env smsf rand now s rec hp hmem hfil
    rw [issuePhoneOtp_store p0 env smsf rand now s hp]
    apply List.mem_append_left
    simp only [invalidateFor, List.mem_map]
    exact ⟨rec, hmem, by rw [if_pos hfil]⟩
  · intro e env₁ env₂ sg₁ sf₁ sg₂ sf₂ r₁ r₂ now₁ now₂ s hreg hne
    have he : e ≠ "" := fun h => by rw [h] at hreg; exact absurd hreg (by decide)
    rw [issueEmailOtp_store e env₂ sg₂ sf₂ r₂ now₂ _ he hreg]
    constructor
    · rw [verifyOtp_valid _ _ _ _ _ _ _ (by simp [truthy, generateOTP_ne_empty r₁])
        (by decide) (fun _ => by simp [truthy, he]) (fun hc => absurd hc (by decide))
        (by simpa using generateOTP_length r₁) (by simpa using generateOTP_digits r₁)]
      exact verifyCore_nomatch_result _ _ _ _ _ _ _
        (verifyLookup_after_issueEmail_other e (generateOTP r₁) r₂ now₂ now₂ _ _ hne)
    · rw [verifyOtp_valid _ _ _ _ _ _ _ (by simp [truthy, generateOTP_ne_empty r₂])
        (by decide) (fun _ => by simp [truthy, he]) (fun hc => absurd hc (by decide))
        (by simpa using generateOTP_length r₂) (by simpa using generateOTP_digits r₂)]
      rw [verifyCore_success _ _ _ _ _ _ _ _
        (verifyLookup_after_issueEmail_same e r₂ now₂ now₂ _ _
          (by simp only [OTP_EXPIRY_MINUTES]; omega))
        (by simp only [emailOtpRecord, MAX_OTP_ATTEMPTS]; omega)]
  · intro p0 env₁ env₂ smsf₁ smsf₂ r₁ r₂ now₁ now₂ s hp hne
    rw [issuePhoneOtp_store p0 env₂ smsf₂ r₂ now₂ _ hp]
    constructor
    · rw [verifyOtp_valid _ _ _ _ _ _ _ (by simp [truthy, generateOTP_ne_empty r₁])
        (by decide) (fun hc => absurd hc (by decide)) (fun _ => by simp [truthy, hp])
        (by simpa using generateOTP_length r₁) (by simpa using generateOTP_digits r₁)]
      exact verifyCore_nomatch_result _ _ _ _ _ _ _
        (verifyLookup_after_issuePhone_other p0 (generateOTP r₁) r₂ now₂ now₂ _ _ hp hne)
    · rw [verifyOtp_valid _ _ _ _ _ _ _ (by simp [truthy, generateOTP_ne_empty r₂])
        (by decide) (fun hc => absurd hc (by decide)) (fun _ => by simp [truthy, hp])
        (by simpa using generateOTP_length r₂) (by simpa using generateOTP_digits r₂)]
      rw [verifyCore_success _ _ _ _ _ _ _ _
        (verifyLookup_after_issuePhone_same p0 r₂ now₂ now₂ _ _ hp
          (by simp only [OTP_EXPIRY_MINUTES]; omega))
        (by simp only [phoneOtpRecord, MAX_OTP_ATTEMPTS]; omega)]

/-- C2 witness: the double-issue scenario of the spec at `a@b.com`, plus
invalidation of a concrete prior unverified row. -/
theorem c2_reissue_invalidates_prior_witness :
    ((⟨0, "email", some "a@b.com", none, "111111", 40, 30, true, 2⟩ : OtpRecord) ∈
      (issueEmailOtp (some "a@b.com") "development" true false false 5 50
        ⟨[⟨0, "email", some "a@b.com", none, "111111", 40, 30, false, 2⟩], 1⟩).2.1.records) ∧
    (verifyOtp (some "a@b.com") none (some (generateOTP 1)) (some "email") 105 false
        (issueEmailOtp (some "a@b.com") "development" true false false 2 105
          (issueEmailOtp (some "a@b.com") "development" true false false 1 100
            ⟨[], 0⟩).2.1).2.1).1 = .invalidOrExpired ∧
    (verifyOtp (some "a@b.com") none (some (generateOTP 2)) (some "email") 105 false
        (issueEmailOtp (some "a@b.com") "development" true false false 2 105
          (issueEmailOtp (some "a@b.com") "development" true false false 1 100
            ⟨[], 0⟩).2.1).2.1).1 = .verifiedOk := by
  have hinv := c2_reissue_invalidates_prior.1 "a@b.com" "development" true false 5 50
    ⟨[⟨0, "email", some "a@b.com", none, "111111", 40, 30, false, 2⟩], 1⟩
    ⟨0, "email", some "a@b.com", none, "111111", 40, 30, false, 2⟩
    (by decide) (by decide) (by decide)
  have hsc := c2_reissue_invalidates_prior.2.2.1 "a@b.com" "development" "development"
    true false true false 1 2 100 105 ⟨[], 0⟩ (by decide) (by decide)
  exact ⟨hinv, hsc.1, hsc.2⟩

/-! Claims C4, C5, C10: lemmas about the lookups. -/

theorem live_implies_codeDest (tyS otpS : String) (email fphone : Option String)
    (now : Nat) (r : OtpRecord)
    (h : verifyLiveFilter tyS otpS email fphone now r = true) :
    codeDestFilter tyS otpS email fphone r = true := by
  simp only [verifyLiveFilter, Bool.and_eq_true, decide_eq_true_eq] at h
  obtain ⟨⟨⟨⟨hty, hcode⟩, hver⟩, hexp⟩, hdest⟩ := h
  simp only [codeDestFilter, Bool.and_eq_true, decide_eq_true_eq]
  exact ⟨⟨hty, hcode⟩, hdest⟩

theorem live_false_of_verified (tyS otpS : String) (email fphone : Option String)
    (now : Nat) (x : OtpRecord) :
    verifyLiveFilter tyS otpS email fphone now { x with verified := true } = false := by
  simp [verifyLiveFilter]

theorem verifyLookup_mem (email phone otp ty : Option String) (now : Nat) (s : Store)
    (r : OtpRecord) (h : verifyLookup email phone otp ty now s = some r) :
    r ∈ s.records ∧
      verifyLiveFilter (ty.getD "") (otp.getD "") email (formattedPhoneOf phone) now r =
        true := by
  unfold verifyLookup at h
  have hm := latest_mem h
  exact ⟨(List.mem_filter.mp hm).1, (List.mem_filter.mp hm).2⟩

theorem verifyRecent_mem (email phone ty : Option String) (s : Store) (r0 : OtpRecord)
    (h : verifyRecent email phone ty s = some r0) : r0 ∈ s.records := by
  unfold verifyRecent at h
  exact (List.mem_filter.mp (latest_mem h)).1

theorem verifyLookup_none_of_no_live (email phone otp ty : Option String) (now : Nat)
    (s : Store)
    (hnolive : ∀ rec ∈ s.records,
      verifyLiveFilter (ty.getD "") (otp.getD "") email (formattedPhoneOf phone) now rec =
        false) :
    verifyLookup email phone otp ty now s = none := by
  unfold verifyLookup
  rw [List.filter_eq_nil_iff.mpr (fun a ha => by simp [hnolive a ha])]
  rfl

/-! Claim C4 (only a live record can be verified; reuse and expiry fail). -/

/-- C4: (a) a `verifiedOk` answer implies some stored row was live
(unverified and strictly unexpired) and matched the submitted code, kind
and destination; (b) after a successful verification of the only row
matching that code and destination, re-submitting the same code answers
`invalidOrExpired` at any later instant; (c) when every row matching the
code and destination is expired at `now`, the verify call answers
`invalidOrExpired` even though the submitted code matches the stored
code. -/
theorem c4_only_live_records_verify :
    (∀ (email phone otp ty : Option String) (now : Nat) (inc : Bool) (s : Store),
      (verifyOtp email phone otp ty now inc s).1 = .verifiedOk →
      ∃ rec, rec ∈ s.records ∧ rec.verified = false ∧ now < rec.expires_at ∧
        rec.otp_code = otp.getD "" ∧ rec.type = ty.getD "") ∧
    (∀ (email phone otp ty : Option String) (now now₂ : Nat) (inc : Bool) (s : Store)
      (r : OtpRecord),
      truthy otp = true → truthy ty = true →
      (ty.getD "" = "email" → truthy email = true) →
      (ty.getD "" = "phone" → truthy phone = true) →
      (otp.getD "").length = OTP_LENGTH →
      (otp.getD "").data.all Char.isDigit = true →
      verifyLookup email phone otp ty now s = some r →
      r.attempts < MAX_OTP_ATTEMPTS →
      (∀ a ∈ s.records,
        codeDestFilter (ty.getD "") (otp.getD "") email (formattedPhoneOf phone) a = true →
        a = r) →
      (verifyOtp email phone otp ty now₂ inc
        (verifyOtp email phone otp ty now false s).2.1).1 = .invalidOrExpired) ∧
    (∀ (email phone otp ty : Option String) (now : Nat) (inc : Bool) (s : Store),
      truthy otp = true → truthy ty = true →
      (ty.getD "" = "email" → truthy email = true) →
      (ty.getD "" = "phone" → truthy phone = true) →
      (otp.getD "").length = OTP_LENGTH →
      (otp.getD "").data.all Char.isDigit = true →
      (∀ rec ∈ s.records,
        codeDestFilter (ty.getD "") (otp.getD "") email (formattedPhoneOf phone) rec = true →
        rec.expires_at ≤ now) →
      (verifyOtp email phone otp ty now inc s).1 = .invalidOrExpired) := by
  refine ⟨?_, ?_, ?_⟩
  · intro email phone otp ty now inc s h
    unfold verifyOtp at h
    split_ifs at h
    cases hlook : verifyLookup email phone otp ty now s with
      | none =>
        rw [verifyCore_nomatch_result email phone otp ty now inc s hlook] at h
        exact absurd h (by decide)
      | some r =>
        by_cases hatt : MAX_OTP_ATTEMPTS ≤ r.attempts
        · rw [verifyCore_max email phone otp ty now inc s r hlook hatt] at h
          simp at h
        · obtain ⟨hmem, hlive⟩ := verifyLookup_mem email phone otp ty now s r hlook
          simp only [verifyLiveFilter, Bool.and_eq_true, decide_eq_true_eq] at hlive
          obtain ⟨⟨⟨⟨hty, hcode⟩, hver⟩, hexp⟩, _⟩ := hlive
          exact ⟨r, hmem, hver, hexp, hcode, hty⟩
  · intro email phone otp ty now now₂ inc s r h1 h2 h3 h4 h5 h6 hlook hatt huniq
    rw [verifyOtp_valid email phone otp ty now false s h1 h2 h3 h4 h5 h6]
    rw [verifyCore_success email phone otp ty now false s r hlook hatt]
    rw [verifyOtp_valid _ _ _ _ _ _ _ h1 h2 h3 h4 h5 h6]
    apply verifyCore_nomatch_result
    apply verifyLookup_none_of_no_live
    intro a ha
    simp only [updateById, List.mem_map] at ha
    obtain ⟨x, hx, hfx⟩ := ha
    by_cases hid : x.id = r.id
    · rw [if_pos hid] at hfx
      rw [← hfx]
      exact live_false_of_verified _ _ _ _ _ x
    · rw [if_neg hid] at hfx
      rw [← hfx]
      by_cases hlive : verifyLiveFilter (ty.getD "") (otp.getD "") email
          (formattedPhoneOf phone) now₂ x = true
      · exfalso
        exact hid (by rw [huniq x hx (live_implies_codeDest _ _ _ _ _ _ hlive)])
      · exact Bool.eq_false_iff.mpr hlive
  · intro email phone otp ty now inc s h1 h2 h3 h4 h5 h6 hexp
    rw [verifyOtp_valid email phone otp ty now inc s h1 h2 h3 h4 h5 h6]
    apply verifyCore_nomatch_result
    apply verifyLookup_none_of_no_live
    intro rec hrec
    by_cases hlive : verifyLiveFilter (ty.getD "") (otp.getD "") email
        (formattedPhoneOf phone) now rec = true
    · exfalso
      have hle := hexp rec hrec (live_implies_codeDest _ _ _ _ _ _ hlive)
      simp only [verifyLiveFilter, Bool.and_eq_true, decide_eq_true_eq] at hlive
      omega
    · exact Bool.eq_false_iff.mpr hlive

/-- C4 witness: a live row verifies once (part a); the second submission
of the same code is rejected (part b); and a matching but expired row is
rejected (part c). -/
theorem c4_only_live_records_verify_witness :
    (∃ rec, rec ∈ ([⟨0, "email", some "a@b.com", none, "123456", 200, 0, false, 0⟩] :
        List OtpRecord) ∧ rec.verified = false ∧ 100 < rec.expires_at ∧
        rec.otp_code = "123456" ∧ rec.type = "email") ∧
    (verifyOtp (some "a@b.com") none (some "123456") (some "email") 101 false
      (verifyOtp (some "a@b.com") none (some "123456") (some "email") 100 false
        ⟨[⟨0, "email", some "a@b.com", none, "123456", 200, 0, false, 0⟩], 1⟩).2.1).1 =
      .invalidOrExpired ∧
    (verifyOtp (some "a@b.com") none (some "123456") (some "email") 300 false
      ⟨[⟨0, "email", some "a@b.com", none, "123456", 200, 0, false, 0⟩], 1⟩).1 =
      .invalidOrExpired := by
  refine ⟨c4_only_live_records_verify.1 (some "a@b.com") none (some "123456") (some "email")
      100 false ⟨[⟨0, "email", some "a@b.com", none, "123456", 200, 0, false, 0⟩], 1⟩
      (by decide),
    c4_only_live_records_verify.2.1 (some "a@b.com") none (some "123456") (some "email")
      100 101 false ⟨[⟨0, "email", some "a@b.com", none, "123456", 200, 0, false, 0⟩], 1⟩
      ⟨0, "email", some "a@b.com", none, "123456", 200, 0, false, 0⟩
      (by decide) (by decide) (fun _ => by decide) (fun hc => absurd hc (by decide))
      (by decide) (by decide) (by decide) (by decide) (by decide),
    c4_only_live_records_verify.2.2 (some "a@b.com") none (some "123456") (some "email")
      300 false ⟨[⟨0, "email", some "a@b.com", none, "123456", 200, 0, false, 0⟩], 1⟩
      (by decide) (by decide) (fun _ => by decide) (fun hc => absurd hc (by decide))
      (by decide) (by decide) (by decide)⟩

/-! Claim C5 (no live match: generic failure plus best-effort increment). -/

/-- C5: when a well-formed request matches no live row, the call answers
`invalidOrExpired`; if some unverified row exists for the destination and
kind, the most recent one has its attempts counter set to exactly one more
(when the best-effort update lands), the store is untouched when no such
row exists, and the answer is the same whether or not the best-effort
update fails. -/
theorem c5_no_live_match_increments (email phone otp ty : Option String) (now : Nat)
    (s : Store) (h1 : truthy otp = true) (h2 : truthy ty = true)
    (h3 : ty.getD "" = "email" → truthy email = true)
    (h4 : ty.getD "" = "phone" → truthy phone = true)
    (h5 : (otp.getD "").length = OTP_LENGTH)
    (h6 : (otp.getD "").data.all Char.isDigit = true)
    (hnolive : ∀ rec ∈ s.records,
      verifyLiveFilter (ty.getD "") (otp.getD "") email (formattedPhoneOf phone) now rec =
        false) :
    (∀ inc : Bool, (verifyOtp email phone otp ty now inc s).1 = .invalidOrExpired) ∧
    (∀ r0 : OtpRecord, verifyRecent email phone ty s = some r0 →
      (verifyOtp email phone otp ty now false s).2.1 =
        { s with records :=
            updateById r0.id (fun x => { x with attempts := r0.attempts + 1 }) s.records }) ∧
    (verifyRecent email phone ty s = none →
      (verifyOtp email phone otp ty now false s).2.1 = s) ∧
    (∀ inc₁ inc₂ : Bool,
      (verifyOtp email phone otp ty now inc₁ s).1 =
        (verifyOtp email phone otp ty now inc₂ s).1) := by
  have hlook := verifyLookup_none_of_no_live email phone otp ty now s hnolive
  refine ⟨?_, ?_, ?_, ?_⟩
  · intro inc
    rw [verifyOtp_valid email phone otp ty now inc s h1 h2 h3 h4 h5 h6]
    exact verifyCore_nomatch_result email phone otp ty now inc s hlook
  · intro r0 hrec
    rw [verifyOtp_valid email phone otp ty now false s h1 h2 h3 h4 h5 h6]
    rw [verifyCore_nomatch_inc email phone otp ty now s r0 hlook hrec]
  · intro hrec
    rw [verifyOtp_valid email phone otp ty now false s h1 h2 h3 h4 h5 h6]
    simp [verifyCore, hlook, hrec]
  · intro inc₁ inc₂
    rw [verifyOtp_valid email phone otp ty now inc₁ s h1 h2 h3 h4 h5 h6,
      verifyOtp_valid email phone otp ty now inc₂ s h1 h2 h3 h4 h5 h6]
    simp only [verifyCore, hlook]
    cases verifyRecent email phone ty s <;> rfl

/-- C5 witness: a wrong six-digit code against a store holding one
unverified row; the row's attempts go from 2 to 3 and the answer is
`invalidOrExpired` whether or not the increment lands. -/
theorem c5_no_live_match_increments_witness :
    (verifyOtp (some "a@b.com") none (some "000000") (some "email") 100 false
      ⟨[⟨0, "email", some "a@b.com", none, "123456", 200, 0, false, 2⟩], 1⟩).1 =
      .invalidOrExpired ∧
    (verifyOtp (some "a@b.com") none (some "000000") (some "email") 100 false
      ⟨[⟨0, "email", some "a@b.com", none, "123456", 200, 0, false, 2⟩], 1⟩).2.1 =
      ⟨[⟨0, "email", some "a@b.com", none, "123456", 200, 0, false, 3⟩], 1⟩ ∧
    (verifyOtp (some "a@b.com") none (some "000000") (some "email") 100 true
      ⟨[⟨0, "email", some "a@b.com", none, "123456", 200, 0, false, 2⟩], 1⟩).1 =
      (verifyOtp (some "a@b.com") none (some "000000") (some "email") 100 false
      ⟨[⟨0, "email", some "a@b.com", none, "123456", 200, 0, false, 2⟩], 1⟩).1 := by
  have h := c5_no_live_match_increments (some "a@b.com") none (some "000000") (some "email")
    100 ⟨[⟨0, "email", some "a@b.com", none, "123456", 200, 0, false, 2⟩], 1⟩
    (by decide) (by decide) (fun _ => by decide) (fun hc => absurd hc (by decide))
    (by decide) (by decide) (by decide)
  refine ⟨h.1 false, ?_, h.2.2.2 true false⟩
  have h2 := h.2.1 ⟨0, "email", some "a@b.com", none, "123456", 200, 0, false, 2⟩ (by decide)
  rw [h2]
  decide

/-! Claim C10 (max attempts is only reachable on a live match). -/

/-- C10: (a) a `maxAttemptsExceeded` answer is reachable only when the
submitted code matches a live row whose attempts counter is at least 5;
(b) a well-formed request whose code matches no live row answers
`invalidOrExpired` even when the most recent unverified row has already
reached 5 attempts, and that row's attempts counter is still set to one
more — so the counter can grow beyond 5 without bound. -/
theorem c10_max_attempts_needs_live_match :
    (∀ (email phone otp ty : Option String) (now : Nat) (inc : Bool) (s : Store),
      (verifyOtp email phone otp ty now inc s).1 = .maxAttemptsExceeded →
      ∃ rec, rec ∈ s.records ∧
        verifyLiveFilter (ty.getD "") (otp.getD "") email (formattedPhoneOf phone) now rec =
          true ∧
        MAX_OTP_ATTEMPTS ≤ rec.attempts) ∧
    (∀ (email phone otp ty : Option String) (now : Nat) (s : Store) (r0 : OtpRecord),
      truthy otp = true → truthy ty = true →
      (ty.getD "" = "email" → truthy email = true) →
      (ty.getD "" = "phone" → truthy phone = true) →
      (otp.getD "").length = OTP_LENGTH →
      (otp.getD "").data.all Char.isDigit = true →
      (∀ rec ∈ s.records,
        verifyLiveFilter (ty.getD "") (otp.getD "") email (formattedPhoneOf phone) now rec =
          false) →
      verifyRecent email phone ty s = some r0 →
      MAX_OTP_ATTEMPTS ≤ r0.attempts →
      (verifyOtp email phone otp ty now false s).1 = .invalidOrExpired ∧
      { r0 with attempts := r0.attempts + 1 } ∈
        (verifyOtp email phone otp ty now false s).2.1.records) := by
  constructor
  · intro email phone otp ty now inc s h
    unfold verifyOtp at h
    split_ifs at h
    cases hlook : verifyLookup email phone otp ty now s with
    | none =>
      rw [verifyCore_nomatch_result email phone otp ty now inc s hlook] at h
      exact absurd h (by decide)
    | some r =>
      by_cases hatt : MAX_OTP_ATTEMPTS ≤ r.attempts
      · obtain ⟨hmem, hlive⟩ := verifyLookup_mem email phone otp ty now s r hlook
        exact ⟨r, hmem, hlive, hatt⟩
      · rw [verifyCore_success email phone otp ty now inc s r hlook
          (Nat.lt_of_not_le hatt)] at h
        simp at h
  · intro email phone otp ty now s r0 h1 h2 h3 h4 h5 h6 hnolive hrec hatt
    have hlook := verifyLookup_none_of_no_live email phone otp ty now s hnolive
    rw [verifyOtp_valid email phone otp ty now false s h1 h2 h3 h4 h5 h6]
    rw [verifyCore_nomatch_inc email phone otp ty now s r0 hlook hrec]
    refine ⟨rfl, ?_⟩
    simp only [updateById, List.mem_map]
    exact ⟨r0, verifyRecent_mem email phone ty s r0 hrec, by rw [if_pos rfl]⟩

/-- C10 witness: a wrong code against a row already at 5 attempts answers
`invalidOrExpired` and pushes the counter to 6; a matching live row at 5
attempts is what a `maxAttemptsExceeded` answer requires. -/
theorem c10_max_attempts_needs_live_match_witness :
    ((verifyOtp (some "a@b.com") none (some "000000") (some "email") 100 false
      ⟨[⟨0, "email", some "a@b.com", none, "123456", 200, 0, false, 5⟩], 1⟩).1 =
      .invalidOrExpired ∧
    (⟨0, "email", some "a@b.com", none, "123456", 200, 0, false, 6⟩ : OtpRecord) ∈
      (verifyOtp (some "a@b.com") none (some "000000") (some "email") 100 false
        ⟨[⟨0, "email", some "a@b.com", none, "123456", 200, 0, false, 5⟩], 1⟩).2.1.records) ∧
    (∃ rec, rec ∈ ([⟨1, "email", some "a@b.com", none, "654321", 200, 10, false, 5⟩] :
        List OtpRecord) ∧
      verifyLiveFilter "email" "654321" (some "a@b.com") (formattedPhoneOf none) 100 rec =
        true ∧
      MAX_OTP_ATTEMPTS ≤ rec.attempts) := by
  constructor
  · have h := c10_max_attempts_needs_live_match.2 (some "a@b.com") none (some "000000")
      (some "email") 100 ⟨[⟨0, "email", some "a@b.com", none, "123456", 200, 0, false, 5⟩], 1⟩
      ⟨0, "email", some "a@b.com", none, "123456", 200, 0, false, 5⟩
      (by decide) (by decide) (fun _ => by decide) (fun hc => absurd hc (by decide))
      (by decide) (by decide) (by decide) (by decide) (by decide)
    exact ⟨h.1, by simpa using h.2⟩
  · exact c10_max_attempts_needs_live_match.1 (some "a@b.com") none (some "654321")
      (some "email") 100 false ⟨[⟨1, "email", some "a@b.com", none, "654321", 200, 10, false, 5⟩], 1⟩
      (by decide)
